import Mathlib

/-!
Verification development for the panic/greed detection pipeline.

Shallow embedding of the detection core:
* `src/core/panic_detector.py` — the `PanicDetector` ten-step algorithm;
* `src/core/filters/{volatility,trend,volume}_filter.py` — the step-7 context filters;
* `src/core/indicators.py` — `safe_calculate_rsi`;
* `src/data/database.py` — `Database.save_signal` and `Database.get_stats`;
* `src/utils/schemas.py` — the Pydantic `PanicSignal` schema and its field constraints.

Python floats are modelled as rationals (`ℚ`), dictionaries with possibly
missing / `None` entries as records of `Option` fields, and raised exceptions
as `Except String` results.  External effects (the market calendar, the volume
filter's cache/API lookup, and the step-9/step-10 enrichment sub-calls, which
catch their own exceptions and only contribute payload fields) are passed in
explicitly through a `DetectorEnv` record.
-/

namespace Panicker

/-- `SignalType` from `utils/schemas.py`. -/
inductive SignalType where
  | panic
  | greed
deriving DecidableEq, Repr

/-- `BaseLevel` from `utils/schemas.py`. -/
inductive BaseLevel where
  | strong
  | good
  | urgent
  | none
deriving DecidableEq, Repr

/-- `FinalLevel` from `utils/schemas.py`. -/
inductive FinalLevel where
  | red
  | yellow
  | white
  | ignore
deriving DecidableEq, Repr

/-- One row of `DEFAULT_THRESHOLDS` in `core/panic_detector.py`. -/
structure ThresholdRow where
  rsi_buy : ℚ
  rsi_sell : ℚ
  volume_min : ℚ
deriving DecidableEq, Repr

/-- `DEFAULT_THRESHOLDS['red']`. -/
def thresholdsRed : ThresholdRow := { rsi_buy := 25, rsi_sell := 75, volume_min := 2 }

/-- `DEFAULT_THRESHOLDS['yellow']`. -/
def thresholdsYellow : ThresholdRow := { rsi_buy := 30, rsi_sell := 70, volume_min := 3/2 }

/-- `DEFAULT_THRESHOLDS['white']`: the only row used by the step-3/4 gates and step 5. -/
def thresholdsWhite : ThresholdRow := { rsi_buy := 35, rsi_sell := 65, volume_min := 6/5 }

/-- `PanicDetector._get_signal_type_from_rsi`: panic when `rsi_14 <= rsi_buy`,
greed when `rsi_14 >= rsi_sell`, otherwise no type. -/
def signalTypeFromRsi (rsi14 : ℚ) : Option SignalType :=
  if rsi14 ≤ thresholdsWhite.rsi_buy then some SignalType.panic
  else if rsi14 ≥ thresholdsWhite.rsi_sell then some SignalType.greed
  else Option.none

/-- The `is_outside` predicate inside `PanicDetector.get_base_level`, on a
present (non-`None`) RSI value. -/
def outside (st : SignalType) (v : ℚ) : Bool :=
  match st with
  | SignalType.panic => decide (v < thresholdsWhite.rsi_buy)
  | SignalType.greed => decide (v > thresholdsWhite.rsi_sell)

/-- `is_outside` on a possibly missing value: Python raises
`TypeError: '<' not supported between instances of 'NoneType' and 'int'`
when the RSI value is `None`. -/
def outsideOpt (st : SignalType) : Option ℚ → Except String Bool
  | Option.none => Except.error "TypeError: comparison of None with threshold"
  | some v => Except.ok (outside st v)

/-- `PanicDetector.get_base_level` (step 5).  The three `is_outside` calls are
evaluated left to right, so a missing `rsi_7` raises before `rsi_14` is looked
at. -/
def getBaseLevel (rsi7 rsi14 rsi21 : Option ℚ) (st : SignalType) :
    Except String BaseLevel := do
  let o7 ← outsideOpt st rsi7
  let o14 ← outsideOpt st rsi14
  let o21 ← outsideOpt st rsi21
  if o7 && o14 && o21 then pure BaseLevel.strong
  else if (o7 && o14) || (o14 && o21) then pure BaseLevel.good
  else if o14 then pure BaseLevel.urgent
  else pure BaseLevel.none

/-- `PanicDetector.adjust_level_by_volume` (step 6).  The source walks the list
`[URGENT, GOOD, STRONG]` by index; `index` on `NONE` raises `ValueError`, which
is caught and the input returned, and `STRONG` is the last entry, so both are
fixed points. -/
def adjustLevelByVolume (base : BaseLevel) (volumeRatio : ℚ) : BaseLevel :=
  if volumeRatio < 2 then base
  else
    match base with
    | BaseLevel.urgent => BaseLevel.good
    | BaseLevel.good => BaseLevel.strong
    | BaseLevel.strong => BaseLevel.strong
    | BaseLevel.none => BaseLevel.none

/-- One rung down the `level_order = [STRONG, GOOD, URGENT, NONE]` chain used in
`PanicDetector.apply_context_filters`; `NONE` is the last index and stays put. -/
def rungDown : BaseLevel → BaseLevel
  | BaseLevel.strong => BaseLevel.good
  | BaseLevel.good => BaseLevel.urgent
  | BaseLevel.urgent => BaseLevel.none
  | BaseLevel.none => BaseLevel.none

/-- `PanicDetector._convert_to_final_level` (step 8 mapping). -/
def convertToFinalLevel : BaseLevel → FinalLevel
  | BaseLevel.strong => FinalLevel.red
  | BaseLevel.good => FinalLevel.yellow
  | BaseLevel.urgent => FinalLevel.white
  | BaseLevel.none => FinalLevel.ignore

/-- Numeric rank of a base level along `none < urgent < good < strong`. -/
def levelRank : BaseLevel → ℕ
  | BaseLevel.none => 0
  | BaseLevel.urgent => 1
  | BaseLevel.good => 2
  | BaseLevel.strong => 3

/-- Numeric rank of a final level along `ignore < white < yellow < red`. -/
def finalRank : FinalLevel → ℕ
  | FinalLevel.ignore => 0
  | FinalLevel.white => 1
  | FinalLevel.yellow => 2
  | FinalLevel.red => 3

/-- `TradeAction` from `core/filters/trend_filter.py`. -/
inductive TradeAction where
  | buy
  | sell
deriving DecidableEq, Repr

/-- The ticker-data dictionary handed to `PanicDetector.analyze_ticker` and,
unchanged, to every step-7 filter.  Each field models one dictionary key;
`Option.none` stands for a missing key (or, equivalently for every use below,
a key present with value `None`).  The one key where the two cases behave
differently, `rsi` inside `TrendFilter.check`, is modelled with a nested
`Option` (`some Option.none` = key present with value `None`). -/
structure TickerDict where
  ticker : Option String := Option.none
  rsi_7 : Option ℚ := Option.none
  rsi_14 : Option ℚ := Option.none
  rsi_21 : Option ℚ := Option.none
  volume_ratio : Option ℚ := Option.none
  price : Option ℚ := Option.none
  current_volume : Option ℚ := Option.none
  average_volume : Option ℚ := Option.none
  atr : Option ℚ := Option.none
  sma_20 : Option ℚ := Option.none
  spread_percent : Option ℚ := Option.none
  current_atr : Option ℚ := Option.none
  average_atr : Option ℚ := Option.none
  historical_atrs : Option (List ℚ) := Option.none
  rsi : Option (Option ℚ) := Option.none
  signal_type : Option String := Option.none
  historical_prices : Option (List ℚ) := Option.none
  historical_volumes : Option (List ℚ) := Option.none
deriving DecidableEq, Repr

/-- The `VolumeCluster` Pydantic schema from `utils/schemas.py` (the shape
embedded in an emitted signal): `volume_percentage` is constrained to
`[0, 100]` and `role` to `support`/`resistance`/`neutral`. -/
structure VolumeCluster where
  price_level : ℚ
  volume_percentage : ℚ
  volume_amount : Option ℚ := Option.none
  role : String := "neutral"
deriving DecidableEq, Repr

/-- The field validators of the `VolumeCluster` schema. -/
def VolumeCluster.valid (c : VolumeCluster) : Bool :=
  decide (0 ≤ c.volume_percentage) && decide (c.volume_percentage ≤ 100) &&
    (decide (c.role = "support") || decide (c.role = "resistance") ||
      decide (c.role = "neutral"))

/-- External effects of one detector invocation, passed in explicitly:
the market calendar answer (step 1), the volume filter's cache/API average
lookup (`VolumeFilter._get_average_volume`, branches 2–3, used only when the
input carries no non-empty `historical_volumes`), the availability and results
of the step-9 cluster analysis (`_analyze_volume_clusters`, which catches all
its exceptions and returns a cluster list plus a summary string) and of the
step-10 risk computation (`_calculate_risk_metrics`, which likewise catches
all its exceptions and returns an optional score plus a text). -/
structure DetectorEnv where
  marketOpen : Bool := true
  fetchedAvgVolume : Option ℚ := Option.none
  clusterAnalyzerAvailable : Bool := false
  clusterResult : List VolumeCluster × String := ([], "")
  riskCalcAvailable : Bool := false
  riskResult : Option ℚ × String := (Option.none, "")

/-- `VolatilityFilter.check` with the detector's default configuration
(`min_atr_ratio = 0.8`, `min_absolute_atr = 0.5`).  The absolute check runs
only under `if price and price > 0` (so a missing, zero or negative price
skips it); `atr_ratio` is forced to `0` when `average_atr ≤ 0`. -/
def volatilityFilterCheck (d : TickerDict) : Bool × String :=
  match d.current_atr with
  | Option.none => (false, "Отсутствует текущий ATR")
  | some currentAtr =>
    let averageAtrOpt : Option ℚ :=
      match d.average_atr with
      | some a => some a
      | Option.none =>
        match d.historical_atrs with
        | some hs => if hs.length > 0 then some (hs.sum / (hs.length : ℚ)) else Option.none
        | Option.none => Option.none
    match averageAtrOpt with
    | Option.none => (false, "Отсутствует средний ATR")
    | some averageAtr =>
      let absoluteFail : Bool :=
        match d.price with
        | some p => decide (0 < p) && decide (currentAtr / p * 100 < 1/2)
        | Option.none => false
      if absoluteFail then (false, "ATR слишком мал")
      else
        let atrRatio : ℚ := if averageAtr > 0 then currentAtr / averageAtr else 0
        if atrRatio ≥ 4/5 then (true, "Волатильность достаточна")
        else (false, "Волатильность низкая")

/-- `TrendFilter.calculate_sma`: mean of the last `period` prices. -/
def trendCalculateSma (prices : List ℚ) (period : ℕ) : Option ℚ :=
  if prices.length = 0 then Option.none
  else if prices.length < period then Option.none
  else some ((prices.drop (prices.length - period)).sum / (period : ℚ))

/-- `TrendFilter.check` with the detector's default configuration
(`ma_period = 20`, `require_trend_alignment = True`).  When `sma = 0`, the
deviation computation in either branch divides by `sma` and the resulting
`ZeroDivisionError` is caught by the outer handler, so the filter fails. -/
def trendFilterCheck (d : TickerDict) : Bool × String :=
  match d.price with
  | Option.none => (false, "Отсутствует текущая цена")
  | some price =>
    let smaOpt : Option ℚ :=
      match d.sma_20 with
      | some s => some s
      | Option.none =>
        match d.historical_prices with
        | some ps => if ps.length ≥ 20 then trendCalculateSma ps 20 else Option.none
        | Option.none => Option.none
    match smaOpt with
    | Option.none => (false, "Отсутствует SMA20")
    | some sma =>
      let actionOpt : Option TradeAction :=
        if d.signal_type = some "panic" then some TradeAction.buy
        else if d.signal_type = some "greed" then some TradeAction.sell
        else
          match (match d.rsi with | some v => v | Option.none => d.rsi_14) with
          | some r => some (if r < 30 then TradeAction.buy else TradeAction.sell)
          | Option.none => Option.none
      match actionOpt with
      | Option.none => (false, "Неопределён тип сигнала")
      | some act =>
        if sma = 0 then (false, "Ошибка проверки тренда: деление на ноль")
        else
          match act with
          | TradeAction.buy =>
            if price > sma then (true, "Покупка: цена выше SMA")
            else (false, "Покупка: цена ниже SMA")
          | TradeAction.sell =>
            if price < sma then (true, "Продажа: цена ниже SMA")
            else (false, "Продажа: цена выше SMA")

/-- `VolumeFilter._get_average_volume`: a non-empty `historical_volumes` list in
the input wins; otherwise the cache/API lookup (modelled by `fetched`). -/
def getAverageVolume (fetched : Option ℚ) (d : TickerDict) : Option ℚ :=
  match d.historical_volumes with
  | some vs => if vs.length > 0 then some (vs.sum / (vs.length : ℚ)) else fetched
  | Option.none => fetched

/-- `VolumeFilter.check`.  The detector instantiates the filter with
`min_volume_ratio = thresholds['white']['volume_min']`; the ratio it tests is
`current_volume / average_volume`, not the input's `volume_ratio` field. -/
def volumeFilterCheck (minVolumeRatio : ℚ) (fetched : Option ℚ) (d : TickerDict) :
    Bool × String :=
  match d.ticker with
  | Option.none => (false, "Отсутствует тикер")
  | some t =>
    if t = "" then (false, "Отсутствует тикер")
    else
      match d.current_volume with
      | Option.none => (false, "Отсутствует текущий объём")
      | some currentVolume =>
        match getAverageVolume fetched d with
        | Option.none => (false, "Нет данных по среднему объёму")
        | some avgVolume =>
          if avgVolume ≤ 0 then (false, "Нет данных по среднему объёму")
          else
            let volumeRatio := currentVolume / avgVolume
            if volumeRatio ≥ minVolumeRatio then (true, "Объём достаточен")
            else (false, "Объём недостаточен")

/-- One iteration of the filter loop in `PanicDetector.apply_context_filters`:
record the reason, and on failure move one rung down `level_order`. -/
def applyFilterStep (name : String) (result : Bool × String)
    (acc : BaseLevel × List String × List String) : BaseLevel × List String × List String :=
  if result.1 then (acc.1, acc.2.1 ++ [name ++ ": " ++ result.2], acc.2.2)
  else (rungDown acc.1, acc.2.1, acc.2.2 ++ [name ++ ": " ++ result.2])

/-- The filter loop of `apply_context_filters` over the named check results, in
the fixed order they are given. -/
def contextFiltersFold (base : BaseLevel) (rs : List (String × Bool × String)) :
    BaseLevel × List String × List String :=
  rs.foldl (fun acc r => applyFilterStep r.1 r.2 acc) (base, [], [])

/-- The three step-7 filter invocations in their fixed source order
`filter_order = ['volatility', 'trend', 'volume']`, each with the check result
the detector's filter instances produce on this input. -/
def filterResults (env : DetectorEnv) (d : TickerDict) : List (String × Bool × String) :=
  [("volatility", volatilityFilterCheck d),
   ("trend", trendFilterCheck d),
   ("volume", volumeFilterCheck thresholdsWhite.volume_min env.fetchedAvgVolume d)]

/-- `PanicDetector.apply_context_filters` (step 7): run the three filters in the
fixed order `[volatility, trend, volume]`, downgrading one rung per failure,
then map the surviving level through `_convert_to_final_level`. -/
def applyContextFilters (env : DetectorEnv) (d : TickerDict) (base : BaseLevel) :
    FinalLevel × List String × List String :=
  let fold := contextFiltersFold base (filterResults env d)
  (convertToFinalLevel fold.1, fold.2.1, fold.2.2)

/-- The `PanicSignal` Pydantic model from `utils/schemas.py` (payload of an
emitted signal).  Required numeric fields keep an `Option` so that the
validators below can reject a `None` exactly as Pydantic does; `timestamp`
(a wall-clock default) is not modelled. -/
structure PanicSignal where
  ticker : String
  signal_type : SignalType
  rsi_7 : Option ℚ
  rsi_14 : Option ℚ
  rsi_21 : Option ℚ
  volume_ratio : ℚ
  current_volume : Option ℚ
  average_volume : Option ℚ
  base_level : BaseLevel
  final_level : FinalLevel
  passed_filters : List String
  failed_filters : List String
  price : Option ℚ
  atr : Option ℚ
  sma_20 : Option ℚ
  spread_percent : ℚ
  volume_clusters : List VolumeCluster
  cluster_summary : String
  risk_metric : Option ℚ
  risk_interpretation : String
  interpretation : String
  recommendation : String
  risk_level : String
deriving DecidableEq, Repr

/-- An optional field constraint: absent values pass, present ones must satisfy
the bound. -/
def optHolds (p : ℚ → Bool) : Option ℚ → Bool
  | Option.none => true
  | some v => p v

/-- The field validators of the `PanicSignal` schema: RSI values in `[0, 100]`
(`rsi_14` required), strictly positive `volume_ratio`, `current_volume`,
`average_volume`, `price` and `atr`, non-negative `spread_percent`,
`risk_metric` in `[0, 100]`, and well-formed nested `VolumeCluster`s.
Constructing a `PanicSignal` with a violating field raises `ValidationError`,
which `analyze_ticker` catches. -/
def PanicSignal.valid (s : PanicSignal) : Bool :=
  optHolds (fun v => decide (0 ≤ v) && decide (v ≤ 100)) s.rsi_7 &&
  (match s.rsi_14 with
   | some v => decide (0 ≤ v) && decide (v ≤ 100)
   | Option.none => false) &&
  optHolds (fun v => decide (0 ≤ v) && decide (v ≤ 100)) s.rsi_21 &&
  decide (0 < s.volume_ratio) &&
  optHolds (fun v => decide (0 < v)) s.current_volume &&
  optHolds (fun v => decide (0 < v)) s.average_volume &&
  optHolds (fun v => decide (0 < v)) s.price &&
  optHolds (fun v => decide (0 < v)) s.atr &&
  decide (0 ≤ s.spread_percent) &&
  optHolds (fun v => decide (0 ≤ v) && decide (v ≤ 100)) s.risk_metric &&
  s.volume_clusters.all VolumeCluster.valid

/-- `PanicDetector._validate_data` (step 2): the four required keys are present
and non-`None`. -/
def validateData (d : TickerDict) : Bool :=
  d.ticker.isSome && d.rsi_14.isSome && d.volume_ratio.isSome && d.price.isSome

/-- `PanicDetector.check_basic_conditions` (steps 1–4). -/
def checkBasicConditions (env : DetectorEnv) (d : TickerDict) :
    Bool × Option SignalType × String :=
  if ¬ env.marketOpen then (false, Option.none, "Биржа закрыта")
  else if ¬ validateData d then (false, Option.none, "Недостаточно данных")
  else
    match d.rsi_14 with
    | Option.none => (false, Option.none, "Нет данных RSI14")
    | some r =>
      match signalTypeFromRsi r with
      | Option.none => (false, Option.none, "RSI14 в нормальном диапазоне")
      | some st =>
        if d.volume_ratio.getD 0 < thresholdsWhite.volume_min then
          (false, Option.none, "Объём недостаточен")
        else (true, some st, "Базовые условия выполнены")

/-- `PanicDetector._generate_interpretation`. -/
def generateInterpretation (st : SignalType) (fl : FinalLevel)
    (riskInterpretation : String) : String :=
  let baseText :=
    match st with
    | SignalType.panic => "Рынок перепродан, наблюдаются признаки панических продаж"
    | SignalType.greed => "Рынок перекуплен, наблюдаются признаки жадности"
  let levelText :=
    match fl with
    | FinalLevel.red => "Сильное отклонение от нормы"
    | FinalLevel.yellow => "Умеренное отклонение от нормы"
    | FinalLevel.white => "Раннее предупреждение"
    | FinalLevel.ignore => "Неопределённый уровень"
  let interp := levelText ++ ". " ++ baseText
  if riskInterpretation = "" then interp
  else interp ++ "\n\n📊 " ++ riskInterpretation

/-- `PanicDetector._generate_recommendation`. -/
def generateRecommendation (st : SignalType) (fl : FinalLevel) : String :=
  match fl with
  | FinalLevel.ignore => "Игнорировать"
  | FinalLevel.red =>
    match st with
    | SignalType.panic => "Рассмотреть контртрендовую покупку"
    | SignalType.greed => "Рассмотреть фиксацию прибыли или продажу"
  | FinalLevel.yellow =>
    match st with
    | SignalType.panic => "Подготовиться к возможной покупке"
    | SignalType.greed => "Подготовиться к возможной продаже"
  | FinalLevel.white => "Наблюдать за развитием ситуации"

/-- `PanicDetector._get_risk_level` (the interpolated numeric suffix of the
display string is elided). -/
def getRiskLevel (fl : FinalLevel) (failedFiltersCount : ℕ)
    (riskMetric : Option ℚ) : String :=
  match riskMetric with
  | some m =>
    if m ≥ 80 then "Очень высокий"
    else if m ≥ 60 then "Высокий"
    else if m ≥ 40 then "Средний"
    else if m ≥ 20 then "Низкий"
    else "Очень низкий"
  | Option.none =>
    match fl with
    | FinalLevel.red =>
      if failedFiltersCount = 0 then "Высокий (сильный сигнал, все фильтры пройдены)"
      else "Высокий (сильный сигнал, но есть непройденные фильтры)"
    | FinalLevel.yellow => "Средний (умеренный сигнал)"
    | FinalLevel.white => "Низкий (предупредительный сигнал)"
    | FinalLevel.ignore => "Неопределённый"

/-- The `PanicSignal(...)` construction inside `analyze_ticker` (steps 9–10
enrichment included): the keyword arguments of the source call, assembled from
the input, the computed levels and the filter reasons.  `adjusted` is the
source's `base_level` variable after the step-6 reassignment. -/
def buildSignal (env : DetectorEnv) (d : TickerDict) (st : SignalType)
    (adjusted : BaseLevel) (finalLevel : FinalLevel)
    (passedF failedF : List String) : PanicSignal :=
  let clusterPair := if env.clusterAnalyzerAvailable then env.clusterResult else ([], "")
  let riskPair := if env.riskCalcAvailable then env.riskResult else (Option.none, "")
  { ticker := d.ticker.getD "UNKNOWN"
    signal_type := st
    rsi_7 := d.rsi_7
    rsi_14 := d.rsi_14
    rsi_21 := d.rsi_21
    volume_ratio := d.volume_ratio.getD 1
    current_volume := d.current_volume
    average_volume := d.average_volume
    base_level := adjusted
    final_level := finalLevel
    passed_filters := passedF
    failed_filters := failedF
    price := d.price
    atr := d.atr
    sma_20 := d.sma_20
    spread_percent := d.spread_percent.getD (1/10)
    volume_clusters := clusterPair.1
    cluster_summary := clusterPair.2
    risk_metric := riskPair.1
    risk_interpretation := riskPair.2
    interpretation := generateInterpretation st finalLevel riskPair.2
    recommendation := generateRecommendation st finalLevel
    risk_level := getRiskLevel finalLevel failedF.length riskPair.1 }

/-- Steps 5-check through 10 of `analyze_ticker`, once `get_base_level` has
returned: drop on `BaseLevel.none`, apply the step-6 volume bump, the step-7
filters, the step-8 `ignore` gate, then build the `PanicSignal` — whose
`ValidationError`, if any, the source catches and turns into `None`. -/
def analyzeAfterBase (env : DetectorEnv) (d : TickerDict) (st : SignalType)
    (baseLevel : BaseLevel) : Option PanicSignal :=
  if baseLevel = BaseLevel.none then Option.none
  else
    let volumeRatio := d.volume_ratio.getD 1
    let adjusted := adjustLevelByVolume baseLevel volumeRatio
    match applyContextFilters env d adjusted with
    | (finalLevel, passedF, failedF) =>
      if finalLevel = FinalLevel.ignore then Option.none
      else
        let signal := buildSignal env d st adjusted finalLevel passedF failedF
        if signal.valid then some signal else Option.none

/-- `PanicDetector.analyze_ticker`: the full ten-step analysis.  The result is
`.error` when an uncaught Python exception escapes (a missing RSI value inside
`get_base_level`), `.ok Option.none` on every expected drop, and
`.ok (some signal)` on emission. -/
def analyzeTicker (env : DetectorEnv) (d : TickerDict) :
    Except String (Option PanicSignal) :=
  match checkBasicConditions env d with
  | (false, _, _) => Except.ok Option.none
  | (true, stOpt, _) =>
    match stOpt with
    | Option.none =>
      -- Unreachable: a successful `check_basic_conditions` always carries a
      -- signal type (`checkBasicConditions_true_hasType` below).
      Except.ok Option.none
    | some st =>
      (getBaseLevel d.rsi_7 d.rsi_14 d.rsi_21 st).map (analyzeAfterBase env d st)

/-- When `check_basic_conditions` succeeds it always returns a signal type. -/
theorem checkBasicConditions_true_hasType (env : DetectorEnv) (d : TickerDict)
    (st : Option SignalType) (msg : String)
    (h : checkBasicConditions env d = (true, st, msg)) : st.isSome := by
  unfold checkBasicConditions at h
  by_cases h1 : env.marketOpen
  · simp [h1] at h
    by_cases h2 : validateData d
    · simp [h2] at h
      cases hr : d.rsi_14 with
      | none => rw [hr] at h; simp at h
      | some r =>
        rw [hr] at h
        cases hs : signalTypeFromRsi r with
        | none => simp [hs] at h
        | some s =>
          simp [hs] at h
          by_cases h3 : d.volume_ratio.getD 0 < thresholdsWhite.volume_min
          · simp [h3] at h
          · simp [h3] at h
            simp [← h.1]
    · simp [h2] at h
  · simp [h1] at h

/-- `PanicDetector.detect_panic` (`return_dict = False`; the `True` variant
converts the same value through `signal_to_dict`, which is itself wrapped in
`try/except` with a field-by-field fallback): any exception escaping
`analyze_ticker` is caught and turned into `None`. -/
def detectPanic (env : DetectorEnv) (d : TickerDict) : Option PanicSignal :=
  match analyzeTicker env d with
  | Except.error _ => Option.none
  | Except.ok r => r

/-! ### Indicator kernel: `safe_calculate_rsi` from `core/indicators.py` -/

/-- `np.diff(prices)`: consecutive differences. -/
def deltas (prices : List ℚ) : List ℚ :=
  List.zipWith (fun a b => b - a) prices prices.tail

/-- `np.where(deltas > 0, deltas, 0)`. -/
def gainsOf (prices : List ℚ) : List ℚ :=
  (deltas prices).map (fun x => if x > 0 then x else 0)

/-- `np.where(deltas < 0, -deltas, 0)`. -/
def lossesOf (prices : List ℚ) : List ℚ :=
  (deltas prices).map (fun x => if x < 0 then -x else 0)

/-- The `avg_gains` / `avg_losses` arrays of `safe_calculate_rsi`: zero before
index `period - 1`, a plain mean of the first `period` entries at `period - 1`,
then the Wilder recurrence `(prev * (period-1) + x_i) / period`. -/
def wilderAvg (xs : List ℚ) (p : ℕ) : ℕ → ℚ
  | 0 => if p = 1 then (xs.take p).sum / (p : ℚ) else 0
  | i + 1 =>
    if i + 2 = p then (xs.take p).sum / (p : ℚ)
    else if i + 1 < p then 0
    else (wilderAvg xs p i * ((p : ℚ) - 1) + xs.getD (i + 1) 0) / (p : ℚ)

/-- The pointwise RSI formula of `safe_calculate_rsi`: `rs` is pinned to `100`
where the average loss is zero (`rs[avg_losses == 0] = 100.0`), and
`rsi = 100 - 100 / (1 + rs)`. -/
def rsiFromAvgs (avgGain avgLoss : ℚ) : ℚ :=
  let rs := if avgLoss = 0 then 100 else avgGain / avgLoss
  100 - 100 / (1 + rs)

/-- `safe_calculate_rsi`: `[]` when fewer than `period + 1` prices, otherwise
`period` leading undefined entries (`NaN` in the source, `Option.none` here)
followed by the RSI values for indices `period - 1 …` of the delta array. -/
def safeCalculateRsi (prices : List ℚ) (p : ℕ) : List (Option ℚ) :=
  if prices.length < p + 1 then []
  else
    let g := gainsOf prices
    let l := lossesOf prices
    if g.length < p then []
    else
      List.replicate p Option.none ++
        ((List.range g.length).drop (p - 1)).map
          (fun i => some (rsiFromAvgs (wilderAvg g p i) (wilderAvg l p i)))

/-! ### Signal store: `Database.save_signal` and `Database.get_stats`
from `data/database.py` -/

/-- One row of the `signals` table (the fifteen inserted columns; the
autoincrement `id` and the defaulted `created_at` are positional and omitted).
`ticker`, `timestamp`, `signal_type` and `level` are `NOT NULL` columns. -/
structure SignalRow where
  ticker : String
  timestamp : String
  signal_type : String
  level : String
  rsi_14 : Option ℚ := Option.none
  volume_ratio : Option ℚ := Option.none
  price : Option ℚ := Option.none
  rsi_7 : Option ℚ := Option.none
  rsi_21 : Option ℚ := Option.none
  base_level : Option String := Option.none
  final_level : Option String := Option.none
  risk_metric : Option ℚ := Option.none
  volume_clusters : Option String := Option.none
  cluster_summary : Option String := Option.none
  passed_filters : Option String := Option.none
deriving DecidableEq, Repr

/-- The dictionary handed to `Database.save_signal` (after the optional
`PanicSignal → dict` conversion).  `volume_clusters` / `passed_filters` stand
for the already-serialized JSON text (`Option.none` when the key is absent or
falsy, matching `json.dumps(...) if signal_dict.get(...) else None`). -/
structure SignalDict where
  ticker : Option String := Option.none
  detected_at : Option String := Option.none
  timestamp : Option String := Option.none
  signal_type : Option String := Option.none
  level : Option String := Option.none
  rsi_14 : Option ℚ := Option.none
  volume_ratio : Option ℚ := Option.none
  current_price : Option ℚ := Option.none
  price : Option ℚ := Option.none
  rsi_7 : Option ℚ := Option.none
  rsi_21 : Option ℚ := Option.none
  base_level : Option String := Option.none
  final_level : Option String := Option.none
  risk_metric : Option ℚ := Option.none
  volume_clusters : Option String := Option.none
  cluster_summary : Option String := Option.none
  passed_filters : Option String := Option.none
deriving DecidableEq, Repr

/-- Python `a or b` on optional strings (`None` and `""` are falsy). -/
def pyOrStr (a b : Option String) : Option String :=
  match a with
  | some s => if s = "" then b else some s
  | Option.none => b

/-- Python `a or b` on optional numbers (`None` and `0` are falsy). -/
def pyOrQ (a b : Option ℚ) : Option ℚ :=
  match a with
  | some v => if v = 0 then b else some v
  | Option.none => b

/-- `Database.save_signal`: an unconditional `INSERT` — there is no
`ON CONFLICT` clause, uniqueness constraint or duplicate lookup.  A `None` in
one of the four `NOT NULL` columns makes the `INSERT` raise `IntegrityError`,
which the `except` handler turns into `False` with the table unchanged.
Returns the new table state and the boolean result. -/
def saveSignal (db : List SignalRow) (s : SignalDict) : List SignalRow × Bool :=
  let timestampOpt := pyOrStr s.detected_at s.timestamp
  let priceOpt := pyOrQ s.current_price s.price
  match s.ticker, timestampOpt, s.signal_type, s.level with
  | some tk, some ts, some sty, some lv =>
    (db ++ [{ ticker := tk, timestamp := ts, signal_type := sty, level := lv,
              rsi_14 := s.rsi_14, volume_ratio := s.volume_ratio, price := priceOpt,
              rsi_7 := s.rsi_7, rsi_21 := s.rsi_21, base_level := s.base_level,
              final_level := s.final_level, risk_metric := s.risk_metric,
              volume_clusters := s.volume_clusters,
              cluster_summary := s.cluster_summary,
              passed_filters := s.passed_filters }], true)
  | _, _, _, _ => (db, false)

/-- The level-count / market-tension part of the `get_stats` result. -/
structure StatsResult where
  total_signals : ℕ
  strong_signals : ℕ
  moderate_signals : ℕ
  urgent_signals : ℕ
  market_tension : String
deriving DecidableEq, Repr

/-- The market-tension classification of `Database.get_stats`: it depends only
on the total signal count in the window. -/
def marketTension (total : ℕ) : String :=
  if total = 0 then "🟢 СПОКОЙНО"
  else if total < 10 then "🟡 УМЕРЕННО"
  else "🔴 ПАНИКА"

/-- `Database.get_stats` over the rows whose `timestamp` falls inside the
`days` window (the SQL `WHERE timestamp >= ?` pre-filtering is the argument).
The most-active / most-calm ticker fields and the statements placed after the
`return` (dead code in the source) are not modelled. -/
def getStats (window : List SignalRow) : StatsResult :=
  { total_signals := window.length
    strong_signals := (window.filter (fun r => r.level = "🔴 СИЛЬНЫЙ")).length
    moderate_signals := (window.filter (fun r => r.level = "🟡 ХОРОШИЙ")).length
    urgent_signals := (window.filter (fun r => r.level = "⚪ СРОЧНЫЙ")).length
    market_tension := marketTension window.length }

/-- Modelled from the spec (for comparison with `getStats`, which is the code):
`0 signals → calm`; `strong/total > 0.3 → high`; else `moderate/total > 0.5 →
moderate`; else `calm`, rendered in the store's label space (`🔴` for the top
category, `🟡` for moderate, `🟢` for calm). -/
def specMarketTension (total strong moderate : ℕ) : String :=
  if total = 0 then "🟢 СПОКОЙНО"
  else if (strong : ℚ) / (total : ℚ) > 3/10 then "🔴 ПАНИКА"
  else if (moderate : ℚ) / (total : ℚ) > 1/2 then "🟡 УМЕРЕННО"
  else "🟢 СПОКОЙНО"

/-! ### Shared lemmas -/

/-- The level component of the filter fold over three results depends only on
the pass/fail booleans: it is `rungDown` iterated once per failure. -/
theorem contextFiltersFold_level (base : BaseLevel)
    (n1 n2 n3 : String) (r1 r2 r3 : Bool × String) :
    (contextFiltersFold base [(n1, r1), (n2, r2), (n3, r3)]).1 =
      rungDown^[([(n1, r1), (n2, r2), (n3, r3)].filter
        (fun r => r.2.1 = false)).length] base := by
  obtain ⟨b1, s1⟩ := r1
  obtain ⟨b2, s2⟩ := r2
  obtain ⟨b3, s3⟩ := r3
  cases b1 <;> cases b2 <;> cases b3 <;>
    simp [contextFiltersFold, applyFilterStep, Function.iterate_succ_apply]

/-- `rungDown` never raises the rank. -/
theorem rungDown_rank_le (b : BaseLevel) : levelRank (rungDown b) ≤ levelRank b := by
  cases b <;> simp [rungDown, levelRank]

/-- Iterated `rungDown` never raises the rank. -/
theorem rungDown_iterate_rank_le (k : ℕ) (b : BaseLevel) :
    levelRank (rungDown^[k] b) ≤ levelRank b := by
  induction k generalizing b with
  | zero => simp
  | succ n ih =>
    calc levelRank (rungDown^[n+1] b) = levelRank (rungDown^[n] (rungDown b)) := by
          rw [Function.iterate_succ_apply]
      _ ≤ levelRank (rungDown b) := ih (rungDown b)
      _ ≤ levelRank b := rungDown_rank_le b

/-- `_convert_to_final_level` preserves the rank exactly. -/
theorem finalRank_convert (b : BaseLevel) : finalRank (convertToFinalLevel b) = levelRank b := by
  cases b <;> rfl

/-- C3: Step 6 (`adjust_level_by_volume`) promotes exactly one rung along
`urgent → good → strong` when `volumeRatio ≥ 2.0` (with `strong` absorbing),
is the identity when `volumeRatio < 2.0`, and never demotes; dually, step 7
(`apply_context_filters`) never returns a level higher than its input: its
result is the input level moved one rung down `strong → good → urgent → none`
per failed filter in the fixed order `[volatility, trend, volume]`. -/
theorem volume_bump_promotes_filters_demote :
    (∀ vr : ℚ, 2 ≤ vr →
      adjustLevelByVolume BaseLevel.urgent vr = BaseLevel.good ∧
      adjustLevelByVolume BaseLevel.good vr = BaseLevel.strong ∧
      adjustLevelByVolume BaseLevel.strong vr = BaseLevel.strong) ∧
    (∀ (b : BaseLevel) (vr : ℚ), vr < 2 → adjustLevelByVolume b vr = b) ∧
    (∀ (b : BaseLevel) (vr : ℚ), levelRank b ≤ levelRank (adjustLevelByVolume b vr)) ∧
    (∀ (env : DetectorEnv) (d : TickerDict) (b : BaseLevel),
      (applyContextFilters env d b).1 =
        convertToFinalLevel
          (rungDown^[((filterResults env d).filter (fun r => r.2.1 = false)).length] b) ∧
      finalRank (applyContextFilters env d b).1 ≤ levelRank b) := by
  refine ⟨?_, ?_, ?_, ?_⟩
  · intro vr h
    have h2 : ¬ vr < 2 := not_lt.mpr h
    refine ⟨?_, ?_, ?_⟩ <;> simp [adjustLevelByVolume, h2]
  · intro b vr h
    simp [adjustLevelByVolume, h]
  · intro b vr
    by_cases h : vr < 2
    · simp [adjustLevelByVolume, h]
    · cases b <;> simp [adjustLevelByVolume, h, levelRank]
  · intro env d b
    have hfold := contextFiltersFold_level b "volatility" "trend" "volume"
      (volatilityFilterCheck d) (trendFilterCheck d)
      (volumeFilterCheck thresholdsWhite.volume_min env.fetchedAvgVolume d)
    constructor
    · show (applyContextFilters env d b).1 = _
      unfold applyContextFilters
      simp only [filterResults] at hfold ⊢
      rw [hfold]
    · unfold applyContextFilters
      simp only [filterResults] at hfold ⊢
      rw [hfold, finalRank_convert]
      exact rungDown_iterate_rank_le _ b

/-- Witness for `volume_bump_promotes_filters_demote` at concrete inputs. -/
theorem volume_bump_promotes_filters_demote_witness :
    adjustLevelByVolume BaseLevel.urgent 3 = BaseLevel.good ∧
    adjustLevelByVolume BaseLevel.good 1 = BaseLevel.good ∧
    finalRank (applyContextFilters {} {} BaseLevel.strong).1 ≤ levelRank BaseLevel.strong :=
  ⟨(volume_bump_promotes_filters_demote.1 3 (by norm_num)).1,
   volume_bump_promotes_filters_demote.2.1 BaseLevel.good 1 (by norm_num),
   (volume_bump_promotes_filters_demote.2.2.2 {} {} BaseLevel.strong).2⟩

/-- C2 counterexample: the claim reads a missing RSI value as "not outside",
which at `(rsi7, rsi14, rsi21) = (None, 30, None)` for a panic signal would
give `urgent` (only `rsi14` outside).  The code instead raises a `TypeError`
when `is_outside` compares `None` with the threshold, so `get_base_level`
produces no level at all. -/
theorem get_base_level_missing_value_raises :
    getBaseLevel Option.none (some 30) Option.none SignalType.panic =
      Except.error "TypeError: comparison of None with threshold" ∧
    getBaseLevel Option.none (some 30) Option.none SignalType.panic ≠
      Except.ok BaseLevel.urgent := by
  constructor
  · rfl
  · simp [getBaseLevel, outsideOpt, Bind.bind, Except.bind, Pure.pure, Except.pure]

/-- C2 (amended): when all three RSI values are present, `get_base_level`
returns `strong` iff all three are outside the white threshold, `good` iff two
adjacent-with-`rsi14` values are outside but not all three, `urgent` iff only
`rsi14` is outside, and `none` iff `rsi14` is not outside — where
`outside x` is `x < 35` for panic and `x > 65` for greed.  A missing value is
not treated as "not outside": it raises (previous theorem). -/
theorem get_base_level_cases (a b c : ℚ) (st : SignalType) :
    (getBaseLevel (some a) (some b) (some c) st = Except.ok BaseLevel.strong ↔
      outside st a ∧ outside st b ∧ outside st c) ∧
    (getBaseLevel (some a) (some b) (some c) st = Except.ok BaseLevel.good ↔
      ((outside st a ∧ outside st b) ∨ (outside st b ∧ outside st c)) ∧
        ¬(outside st a ∧ outside st b ∧ outside st c)) ∧
    (getBaseLevel (some a) (some b) (some c) st = Except.ok BaseLevel.urgent ↔
      outside st b ∧ ¬ outside st a ∧ ¬ outside st c) ∧
    (getBaseLevel (some a) (some b) (some c) st = Except.ok BaseLevel.none ↔
      ¬ outside st b) := by
  cases h1 : outside st a <;> cases h2 : outside st b <;> cases h3 : outside st c <;>
    simp [getBaseLevel, outsideOpt, h1, h2, h3, Bind.bind, Except.bind, Pure.pure, Except.pure]

/-- When the basic gate fails, `analyze_ticker` drops. -/
theorem analyzeTicker_basic_false (env : DetectorEnv) (d : TickerDict)
    (h : (checkBasicConditions env d).1 = false) :
    analyzeTicker env d = Except.ok Option.none := by
  unfold analyzeTicker
  cases hcb : checkBasicConditions env d with
  | mk b rest =>
    obtain ⟨st0, m⟩ := rest
    rw [hcb] at h
    simp only at h
    subst h
    rfl

/-- When the basic gate succeeds, `analyze_ticker` is step 5 followed by the
rest of the pipeline. -/
theorem analyzeTicker_basic_true (env : DetectorEnv) (d : TickerDict)
    (st0 : SignalType) (m : String)
    (hcb : checkBasicConditions env d = (true, some st0, m)) :
    analyzeTicker env d =
      (getBaseLevel d.rsi_7 d.rsi_14 d.rsi_21 st0).map (analyzeAfterBase env d st0) := by
  unfold analyzeTicker
  rw [hcb]

/-- A successful basic gate pins the signal type to
`_get_signal_type_from_rsi` of the present `rsi_14`. -/
theorem checkBasicConditions_true_inv (env : DetectorEnv) (d : TickerDict)
    (st0 : Option SignalType) (m : String)
    (h : checkBasicConditions env d = (true, st0, m)) :
    ∃ r, d.rsi_14 = some r ∧ signalTypeFromRsi r = st0 := by
  unfold checkBasicConditions at h
  by_cases h1 : env.marketOpen
  · simp only [h1, not_true, if_false, ite_false] at h
    by_cases h2 : validateData d
    · simp only [h2, not_true, if_false, ite_false] at h
      cases hr : d.rsi_14 with
      | none => rw [hr] at h; simp at h
      | some r =>
        rw [hr] at h
        cases hs : signalTypeFromRsi r with
        | none => simp [hs] at h
        | some s =>
          simp only [hs] at h
          by_cases h3 : d.volume_ratio.getD 0 < thresholdsWhite.volume_min
          · simp [h3] at h
          · simp only [h3, if_false, Prod.mk.injEq, ite_false] at h
            exact ⟨r, rfl, by rw [hs, h.2.1]⟩
    · simp [h2] at h
  · simp [h1] at h

/-- When `rsi_14` is not outside, `get_base_level` yields `none` if the other
two values are present and raises otherwise. -/
theorem getBaseLevel_not_outside (r7 r21 : Option ℚ) (r : ℚ) (st : SignalType)
    (h : outside st r = false) :
    getBaseLevel r7 (some r) r21 st = Except.ok BaseLevel.none ∨
    ∃ e, getBaseLevel r7 (some r) r21 st = Except.error e := by
  cases r7 with
  | none => exact Or.inr ⟨_, rfl⟩
  | some a =>
    cases r21 with
    | none => exact Or.inr ⟨_, rfl⟩
    | some c =>
      left
      cases ho7 : outside st a <;> cases ho21 : outside st c <;>
        simp [getBaseLevel, outsideOpt, h, ho7, ho21,
          Bind.bind, Except.bind, Pure.pure, Except.pure]

/-- C5: whenever `rsi_14` lies strictly between the white thresholds
`rsi_buy = 35` and `rsi_sell = 65`, the basic gate fails at step 3 and the
detector emits no signal, regardless of every other input field and of the
environment. -/
theorem rsi_normal_range_no_signal (env : DetectorEnv) (d : TickerDict) (r : ℚ)
    (hr : d.rsi_14 = some r) (h35 : 35 < r) (h65 : r < 65) :
    (checkBasicConditions env d).1 = false ∧
    analyzeTicker env d = Except.ok Option.none ∧
    detectPanic env d = Option.none := by
  have hbuy : thresholdsWhite.rsi_buy = 35 := rfl
  have hsell : thresholdsWhite.rsi_sell = 65 := rfl
  have hst : signalTypeFromRsi r = Option.none := by
    unfold signalTypeFromRsi
    rw [hbuy, hsell, if_neg (not_le.mpr h35), if_neg (not_le.mpr h65)]
  have hbasic : (checkBasicConditions env d).1 = false := by
    unfold checkBasicConditions
    cases hm : env.marketOpen with
    | false => simp [hm]
    | true =>
      cases hv : validateData d with
      | false => simp [hm, hv]
      | true => simp [hm, hv, hr, hst]
  have hana : analyzeTicker env d = Except.ok Option.none :=
    analyzeTicker_basic_false env d hbasic
  exact ⟨hbasic, hana, by simp [detectPanic, hana]⟩

/-- Witness for `rsi_normal_range_no_signal` at `rsi_14 = 50`. -/
theorem rsi_normal_range_no_signal_witness :
    (checkBasicConditions {} ({ rsi_14 := some 50 } : TickerDict)).1 = false ∧
    analyzeTicker {} ({ rsi_14 := some 50 } : TickerDict) = Except.ok Option.none ∧
    detectPanic {} ({ rsi_14 := some 50 } : TickerDict) = Option.none :=
  rsi_normal_range_no_signal {} { rsi_14 := some 50 } 50 rfl (by norm_num) (by norm_num)

/-- C9: at the exact boundary `rsi_14 = rsi_buy = 35` the step-3 gate
classifies the input as panic (`≤` is inclusive), but step 5's strict
`rsi < rsi_buy` makes `outside (rsi_14)` false, so the base level is `none`
whenever it is computed and the detector never emits; symmetrically for
`rsi_14 = rsi_sell = 65` and greed. -/
theorem boundary_rsi_never_emits :
    signalTypeFromRsi 35 = some SignalType.panic ∧
    signalTypeFromRsi 65 = some SignalType.greed ∧
    (∀ r7 r21 : ℚ, getBaseLevel (some r7) (some 35) (some r21) SignalType.panic =
      Except.ok BaseLevel.none) ∧
    (∀ r7 r21 : ℚ, getBaseLevel (some r7) (some 65) (some r21) SignalType.greed =
      Except.ok BaseLevel.none) ∧
    (∀ (env : DetectorEnv) (d : TickerDict),
      d.rsi_14 = some 35 ∨ d.rsi_14 = some 65 →
      (∀ s : PanicSignal, analyzeTicker env d ≠ Except.ok (some s)) ∧
        detectPanic env d = Option.none) := by
  have h35 : outside SignalType.panic 35 = false := by decide
  have h65 : outside SignalType.greed 65 = false := by decide
  have hbl35 : ∀ r7 r21 : ℚ, getBaseLevel (some r7) (some 35) (some r21) SignalType.panic =
      Except.ok BaseLevel.none := by
    intro r7 r21
    rcases getBaseLevel_not_outside (some r7) (some r21) 35 SignalType.panic h35 with h | ⟨e, h⟩
    · exact h
    · exact absurd h (by
        cases ho7 : outside SignalType.panic r7 <;>
          cases ho21 : outside SignalType.panic r21 <;>
          simp [getBaseLevel, outsideOpt, h35, ho7, ho21,
            Bind.bind, Except.bind, Pure.pure, Except.pure])
  have hbl65 : ∀ r7 r21 : ℚ, getBaseLevel (some r7) (some 65) (some r21) SignalType.greed =
      Except.ok BaseLevel.none := by
    intro r7 r21
    rcases getBaseLevel_not_outside (some r7) (some r21) 65 SignalType.greed h65 with h | ⟨e, h⟩
    · exact h
    · exact absurd h (by
        cases ho7 : outside SignalType.greed r7 <;>
          cases ho21 : outside SignalType.greed r21 <;>
          simp [getBaseLevel, outsideOpt, h65, ho7, ho21,
            Bind.bind, Except.bind, Pure.pure, Except.pure])
  have hmain : ∀ (env : DetectorEnv) (d : TickerDict),
      d.rsi_14 = some 35 ∨ d.rsi_14 = some 65 →
      ∀ s : PanicSignal, analyzeTicker env d ≠ Except.ok (some s) := by
    intro env d hor s heq
    cases hcb : checkBasicConditions env d with
    | mk b rest =>
      obtain ⟨st0, m⟩ := rest
      cases b with
      | false =>
        rw [analyzeTicker_basic_false env d (by rw [hcb])] at heq
        exact Option.noConfusion (Except.ok.inj heq)
      | true =>
        cases st0 with
        | none =>
          unfold analyzeTicker at heq
          rw [hcb] at heq
          exact Option.noConfusion (Except.ok.inj heq)
        | some st =>
          obtain ⟨r, hr14, hst⟩ := checkBasicConditions_true_inv env d (some st) m hcb
          have hout : outside st r = false := by
            rcases hor with h | h
            · rw [hr14] at h
              have : r = 35 := by injection h
              subst this
              have hstp : st = SignalType.panic := by
                have h0 : signalTypeFromRsi (35:ℚ) = some SignalType.panic := by decide
                rw [hst] at h0
                exact Option.some.inj h0
              subst hstp
              exact h35
            · rw [hr14] at h
              have : r = 65 := by injection h
              subst this
              have hstg : st = SignalType.greed := by
                have h0 : signalTypeFromRsi (65:ℚ) = some SignalType.greed := by decide
                rw [hst] at h0
                exact Option.some.inj h0
              subst hstg
              exact h65
          rw [analyzeTicker_basic_true env d st m hcb] at heq
          rcases getBaseLevel_not_outside d.rsi_7 d.rsi_21 r st hout with hbl | ⟨e, hbl⟩
          · rw [hr14, hbl] at heq
            simp [Except.map, analyzeAfterBase] at heq
          · rw [hr14, hbl] at heq
            simp [Except.map] at heq
  refine ⟨by decide, by decide, hbl35, hbl65, ?_⟩
  intro env d hor
  refine ⟨hmain env d hor, ?_⟩
  unfold detectPanic
  cases hana : analyzeTicker env d with
  | error e => rfl
  | ok r =>
    cases r with
    | none => rfl
    | some s => exact absurd hana (hmain env d hor s)

/-- A concrete input sitting exactly on the panic boundary `rsi_14 = 35`. -/
def boundaryInput : TickerDict :=
  { ticker := some "SBER", rsi_14 := some 35, volume_ratio := some 2, price := some 100 }

/-- Witness for `boundary_rsi_never_emits` at a concrete boundary input. -/
theorem boundary_rsi_never_emits_witness :
    detectPanic {} boundaryInput = Option.none :=
  (boundary_rsi_never_emits.2.2.2.2 {} boundaryInput (Or.inl rfl)).2

/-- The step-6 bump never produces `none` from a non-`none` level. -/
theorem adjustLevelByVolume_ne_none (bl : BaseLevel) (vr : ℚ)
    (h : bl ≠ BaseLevel.none) : adjustLevelByVolume bl vr ≠ BaseLevel.none := by
  cases bl with
  | none => exact absurd rfl h
  | strong => by_cases h2 : vr < 2 <;> simp [adjustLevelByVolume, h2]
  | good => by_cases h2 : vr < 2 <;> simp [adjustLevelByVolume, h2]
  | urgent => by_cases h2 : vr < 2 <;> simp [adjustLevelByVolume, h2]

/-- Inversion of a successful tail of the pipeline: an emitted signal is the
built signal, its validation passed, and the post-filter level was not
`ignore`. -/
theorem analyzeAfterBase_some_inv (env : DetectorEnv) (d : TickerDict)
    (st : SignalType) (bl : BaseLevel) (s : PanicSignal)
    (h : analyzeAfterBase env d st bl = some s) :
    bl ≠ BaseLevel.none ∧
    ∃ fl pf ff,
      applyContextFilters env d (adjustLevelByVolume bl (d.volume_ratio.getD 1)) =
        (fl, pf, ff) ∧
      fl ≠ FinalLevel.ignore ∧
      s = buildSignal env d st (adjustLevelByVolume bl (d.volume_ratio.getD 1)) fl pf ff ∧
      s.valid = true := by
  simp only [analyzeAfterBase] at h
  by_cases hbl : bl = BaseLevel.none
  · simp [hbl] at h
  · refine ⟨hbl, ?_⟩
    rw [if_neg hbl] at h
    cases hac : applyContextFilters env d (adjustLevelByVolume bl (d.volume_ratio.getD 1)) with
    | mk fl rest =>
      obtain ⟨pf, ff⟩ := rest
      rw [hac] at h
      simp only at h
      by_cases hfl : fl = FinalLevel.ignore
      · simp [hfl] at h
      · rw [if_neg hfl] at h
        by_cases hv : (buildSignal env d st
            (adjustLevelByVolume bl (d.volume_ratio.getD 1)) fl pf ff).valid
        · rw [if_pos hv] at h
          exact ⟨fl, pf, ff, rfl, hfl, (Option.some.inj h).symm,
            by rw [← Option.some.inj h]; exact hv⟩
        · simp [hv] at h

/-- C10: `detect_panic` is total at the public boundary: it forwards the
analysis result and converts any exception escaping `analyze_ticker` into the
no-signal result `None`, so no input can make it raise. -/
theorem detect_panic_total :
    (∀ (env : DetectorEnv) (d : TickerDict) (e : String),
      analyzeTicker env d = Except.error e → detectPanic env d = Option.none) ∧
    (∀ (env : DetectorEnv) (d : TickerDict) (r : Option PanicSignal),
      analyzeTicker env d = Except.ok r → detectPanic env d = r) := by
  constructor
  · intro env d e h
    unfold detectPanic
    rw [h]
  · intro env d r h
    unfold detectPanic
    rw [h]

/-- An input whose missing `rsi_7` makes step 5 raise a `TypeError`. -/
def missingRsi7Input : TickerDict :=
  { ticker := some "SBER", rsi_14 := some 30, volume_ratio := some 2, price := some 100 }

/-- On `missingRsi7Input` the basic gate passes with type panic. -/
theorem checkBasic_missingRsi7 :
    checkBasicConditions {} missingRsi7Input =
      (true, some SignalType.panic, "Базовые условия выполнены") := by
  norm_num [checkBasicConditions, missingRsi7Input, validateData, signalTypeFromRsi,
    thresholdsWhite]

/-- On `missingRsi7Input`, step 5 raises and the exception escapes
`analyze_ticker`. -/
theorem analyzeTicker_missingRsi7 :
    analyzeTicker {} missingRsi7Input =
      Except.error "TypeError: comparison of None with threshold" := by
  rw [analyzeTicker_basic_true {} missingRsi7Input SignalType.panic
    "Базовые условия выполнены" checkBasic_missingRsi7]
  rfl

/-- Witness for `detect_panic_total`: a concrete input on which
`analyze_ticker` raises, and one on which it returns a result. -/
theorem detect_panic_total_witness :
    detectPanic {} missingRsi7Input = Option.none ∧
    detectPanic { marketOpen := false } {} = Option.none :=
  ⟨detect_panic_total.1 {} missingRsi7Input
      "TypeError: comparison of None with threshold" analyzeTicker_missingRsi7,
   detect_panic_total.2 { marketOpen := false } {} Option.none rfl⟩

/-- C1 (amended): `analyze_ticker` emits exactly when the pipeline reaches
step 8 with a post-filter level other than `ignore` *and* the assembled
`PanicSignal` passes the schema validation (whose `ValidationError` the source
catches, returning `None`).  Every emitted signal carries a `final_level` in
`{red, yellow, white}` and a (volume-adjusted) `base_level` in
`{strong, good, urgent}`; a post-filter level of `ignore` yields no signal. -/
theorem emit_iff_final_level_and_valid :
    (∀ (env : DetectorEnv) (d : TickerDict) (s : PanicSignal),
      analyzeTicker env d = Except.ok (some s) →
        s.valid = true ∧
        (s.final_level = FinalLevel.red ∨ s.final_level = FinalLevel.yellow ∨
          s.final_level = FinalLevel.white) ∧
        (s.base_level = BaseLevel.strong ∨ s.base_level = BaseLevel.good ∨
          s.base_level = BaseLevel.urgent)) ∧
    (∀ (env : DetectorEnv) (d : TickerDict) (st : SignalType) (m : String) (bl : BaseLevel),
      checkBasicConditions env d = (true, some st, m) →
      getBaseLevel d.rsi_7 d.rsi_14 d.rsi_21 st = Except.ok bl →
      (applyContextFilters env d (adjustLevelByVolume bl (d.volume_ratio.getD 1))).1 =
        FinalLevel.ignore →
      analyzeTicker env d = Except.ok Option.none) ∧
    (∀ (env : DetectorEnv) (d : TickerDict) (st : SignalType) (m : String) (bl : BaseLevel)
        (fl : FinalLevel) (pf ff : List String),
      checkBasicConditions env d = (true, some st, m) →
      getBaseLevel d.rsi_7 d.rsi_14 d.rsi_21 st = Except.ok bl →
      bl ≠ BaseLevel.none →
      applyContextFilters env d (adjustLevelByVolume bl (d.volume_ratio.getD 1)) =
        (fl, pf, ff) →
      fl ≠ FinalLevel.ignore →
      (buildSignal env d st (adjustLevelByVolume bl (d.volume_ratio.getD 1))
        fl pf ff).valid = true →
      analyzeTicker env d = Except.ok
        (some (buildSignal env d st (adjustLevelByVolume bl (d.volume_ratio.getD 1))
          fl pf ff))) := by
  refine ⟨?_, ?_, ?_⟩
  · intro env d s heq
    cases hcb : checkBasicConditions env d with
    | mk b rest =>
      obtain ⟨st0, m⟩ := rest
      cases b with
      | false =>
        rw [analyzeTicker_basic_false env d (by rw [hcb])] at heq
        exact absurd (Except.ok.inj heq) (by simp)
      | true =>
        cases st0 with
        | none =>
          unfold analyzeTicker at heq
          rw [hcb] at heq
          exact absurd (Except.ok.inj heq) (by simp)
        | some st =>
          rw [analyzeTicker_basic_true env d st m hcb] at heq
          cases hbl : getBaseLevel d.rsi_7 d.rsi_14 d.rsi_21 st with
          | error e => rw [hbl] at heq; simp [Except.map] at heq
          | ok bl =>
            rw [hbl] at heq
            simp only [Except.map, Except.ok.injEq] at heq
            obtain ⟨hbln, fl, pf, ff, hac, hfl, hseq, hsv⟩ :=
              analyzeAfterBase_some_inv env d st bl s heq
            refine ⟨hsv, ?_, ?_⟩
            · have hfl2 : s.final_level = fl := by rw [hseq]; rfl
              rw [hfl2]
              cases fl with
              | ignore => exact absurd rfl hfl
              | red => exact Or.inl rfl
              | yellow => exact Or.inr (Or.inl rfl)
              | white => exact Or.inr (Or.inr rfl)
            · have hbase : s.base_level =
                  adjustLevelByVolume bl (d.volume_ratio.getD 1) := by rw [hseq]; rfl
              have hadj := adjustLevelByVolume_ne_none bl (d.volume_ratio.getD 1) hbln
              rw [hbase]
              cases hA : adjustLevelByVolume bl (d.volume_ratio.getD 1) with
              | none => exact absurd hA hadj
              | strong => exact Or.inl rfl
              | good => exact Or.inr (Or.inl rfl)
              | urgent => exact Or.inr (Or.inr rfl)
  · intro env d st m bl hcb hbl hfl
    rw [analyzeTicker_basic_true env d st m hcb, hbl]
    simp only [Except.map, Except.ok.injEq]
    simp only [analyzeAfterBase]
    by_cases hbln : bl = BaseLevel.none
    · simp [hbln]
    · rw [if_neg hbln]
      cases hac : applyContextFilters env d
          (adjustLevelByVolume bl (d.volume_ratio.getD 1)) with
      | mk fl rest =>
        obtain ⟨pf, ff⟩ := rest
        have hfleq : fl = FinalLevel.ignore := by rw [hac] at hfl; exact hfl
        simp [hfleq]
  · intro env d st m bl fl pf ff hcb hbl hbln hac hfl hval
    rw [analyzeTicker_basic_true env d st m hcb, hbl]
    simp only [Except.map, Except.ok.injEq]
    simp only [analyzeAfterBase]
    rw [if_neg hbln, hac]
    simp only [if_neg hfl, if_pos hval]

/-- An input that sails through every gate and filter (post-filter level
`red`) but whose `rsi_14 = -5` violates the `PanicSignal` schema bound
`0 ≤ rsi_14 ≤ 100`. -/
def invalidRsiInput : TickerDict :=
  { ticker := some "SBER", rsi_7 := some 20, rsi_14 := some (-5), rsi_21 := some 20,
    volume_ratio := some (3/2), price := some 100, current_volume := some 300,
    historical_volumes := some [100], current_atr := some 2, average_atr := some 2,
    sma_20 := some 90 }

/-- The passed-filter annotations produced on `invalidRsiInput`. -/
def allPassedList : List String :=
  ["volatility: Волатильность достаточна", "trend: Покупка: цена выше SMA",
   "volume: Объём достаточен"]

/-- All three filters pass on `invalidRsiInput`. -/
theorem filters_invalidRsi :
    volatilityFilterCheck invalidRsiInput = (true, "Волатильность достаточна") ∧
    trendFilterCheck invalidRsiInput = (true, "Покупка: цена выше SMA") ∧
    volumeFilterCheck thresholdsWhite.volume_min Option.none invalidRsiInput =
      (true, "Объём достаточен") := by
  refine ⟨?_, ?_, ?_⟩
  · norm_num [volatilityFilterCheck, invalidRsiInput]
  · norm_num [trendFilterCheck, invalidRsiInput]
    decide
  · norm_num [volumeFilterCheck, getAverageVolume, invalidRsiInput, thresholdsWhite]
    decide

/-- Step 7 on `invalidRsiInput` keeps `strong` and finalizes to `red`. -/
theorem apply_filters_invalidRsi :
    applyContextFilters {} invalidRsiInput BaseLevel.strong =
      (FinalLevel.red, allPassedList, []) := by
  simp [applyContextFilters, filterResults, contextFiltersFold, applyFilterStep,
    filters_invalidRsi.1, filters_invalidRsi.2.1, filters_invalidRsi.2.2,
    convertToFinalLevel, allPassedList]

/-- The basic gate on `invalidRsiInput` passes with type panic. -/
theorem checkBasic_invalidRsi :
    checkBasicConditions {} invalidRsiInput =
      (true, some SignalType.panic, "Базовые условия выполнены") := by
  norm_num [checkBasicConditions, invalidRsiInput, validateData, signalTypeFromRsi,
    thresholdsWhite]

/-- Step 5 on `invalidRsiInput` gives `strong`. -/
theorem baseLevel_invalidRsi :
    getBaseLevel invalidRsiInput.rsi_7 invalidRsiInput.rsi_14 invalidRsiInput.rsi_21
      SignalType.panic = Except.ok BaseLevel.strong := by
  norm_num [getBaseLevel, outsideOpt, outside, thresholdsWhite, invalidRsiInput,
    Bind.bind, Except.bind, Pure.pure, Except.pure]

/-- Step 6 on `invalidRsiInput` leaves `strong` (volume ratio `1.5 < 2`). -/
theorem adjust_invalidRsi :
    adjustLevelByVolume BaseLevel.strong (invalidRsiInput.volume_ratio.getD 1) =
      BaseLevel.strong := by
  norm_num [adjustLevelByVolume, invalidRsiInput]

/-- The signal assembled from `invalidRsiInput` fails validation
(`rsi_14 = -5`). -/
theorem buildSignal_invalidRsi_invalid :
    (buildSignal {} invalidRsiInput SignalType.panic BaseLevel.strong FinalLevel.red
      allPassedList []).valid = false := by
  norm_num [buildSignal, PanicSignal.valid, optHolds, invalidRsiInput]

/-- C1 counterexample: on `invalidRsiInput` the level after the step-7 filters
is `red` (not `ignore`), yet `analyze_ticker` emits no signal — the
`PanicSignal` constructor raises a `ValidationError` (caught, `None`
returned), refuting "signal emitted iff post-filter level is not ignore". -/
theorem emit_iff_cex :
    (applyContextFilters {} invalidRsiInput
      (adjustLevelByVolume BaseLevel.strong (invalidRsiInput.volume_ratio.getD 1))).1 =
      FinalLevel.red ∧
    analyzeTicker {} invalidRsiInput = Except.ok Option.none := by
  constructor
  · rw [adjust_invalidRsi, apply_filters_invalidRsi]
  · rw [analyzeTicker_basic_true {} invalidRsiInput SignalType.panic
      "Базовые условия выполнены" checkBasic_invalidRsi, baseLevel_invalidRsi]
    simp only [Except.map, Except.ok.injEq]
    simp only [analyzeAfterBase]
    rw [if_neg (by decide : ¬ (BaseLevel.strong = BaseLevel.none)),
      adjust_invalidRsi]
    have hac : applyContextFilters {} invalidRsiInput BaseLevel.strong =
        (FinalLevel.red, allPassedList, []) := apply_filters_invalidRsi
    rw [hac]
    simp only [if_neg (by decide : ¬ (FinalLevel.red = FinalLevel.ignore))]
    rw [if_neg (by simp [buildSignal_invalidRsi_invalid])]

/-- A fully valid strong-panic input: every gate and filter passes and the
assembled signal satisfies the schema. -/
def emitInput : TickerDict :=
  { ticker := some "SBER", rsi_7 := some 20, rsi_14 := some 24, rsi_21 := some 20,
    volume_ratio := some (3/2), price := some 100, current_volume := some 300,
    historical_volumes := some [100], current_atr := some 2, average_atr := some 2,
    sma_20 := some 90 }

/-- An input whose base level (`urgent`) is eaten by one failed filter
(volatility: no ATR data), so the post-filter level is `ignore`. -/
def ignoreInput : TickerDict :=
  { ticker := some "SBER", rsi_7 := some 40, rsi_14 := some 24, rsi_21 := some 40,
    volume_ratio := some (3/2), price := some 100, current_volume := some 300,
    historical_volumes := some [100], sma_20 := some 90 }

/-- The basic gate passes on both witness inputs. -/
theorem checkBasic_emit_ignore :
    checkBasicConditions {} emitInput =
      (true, some SignalType.panic, "Базовые условия выполнены") ∧
    checkBasicConditions {} ignoreInput =
      (true, some SignalType.panic, "Базовые условия выполнены") := by
  constructor <;>
    norm_num [checkBasicConditions, emitInput, ignoreInput, validateData,
      signalTypeFromRsi, thresholdsWhite]

/-- Step 5 gives `strong` on `emitInput` and `urgent` on `ignoreInput`. -/
theorem baseLevel_emit_ignore :
    getBaseLevel emitInput.rsi_7 emitInput.rsi_14 emitInput.rsi_21 SignalType.panic =
      Except.ok BaseLevel.strong ∧
    getBaseLevel ignoreInput.rsi_7 ignoreInput.rsi_14 ignoreInput.rsi_21 SignalType.panic =
      Except.ok BaseLevel.urgent := by
  constructor <;>
    norm_num [getBaseLevel, outsideOpt, outside, thresholdsWhite, emitInput, ignoreInput,
      Bind.bind, Except.bind, Pure.pure, Except.pure]

/-- Step 7 on `emitInput` (after the no-op step-6 bump): all filters pass,
final level `red`. -/
theorem applyFilters_emitInput :
    applyContextFilters {} emitInput
      (adjustLevelByVolume BaseLevel.strong (emitInput.volume_ratio.getD 1)) =
      (FinalLevel.red, allPassedList, []) := by
  have hadj : adjustLevelByVolume BaseLevel.strong (emitInput.volume_ratio.getD 1) =
      BaseLevel.strong := by norm_num [adjustLevelByVolume, emitInput]
  rw [hadj]
  have h1 : volatilityFilterCheck emitInput = (true, "Волатильность достаточна") := by
    norm_num [volatilityFilterCheck, emitInput]
  have h2 : trendFilterCheck emitInput = (true, "Покупка: цена выше SMA") := by
    norm_num [trendFilterCheck, emitInput]
    decide
  have h3 : volumeFilterCheck thresholdsWhite.volume_min Option.none emitInput =
      (true, "Объём достаточен") := by
    norm_num [volumeFilterCheck, getAverageVolume, emitInput, thresholdsWhite]
    decide
  simp [applyContextFilters, filterResults, contextFiltersFold, applyFilterStep,
    h1, h2, h3, convertToFinalLevel, allPassedList]

/-- Step 7 on `ignoreInput` (after the no-op step-6 bump): the volatility
filter fails and drags `urgent` down to `none`, so the final level is
`ignore`. -/
theorem applyFilters_ignoreInput :
    (applyContextFilters {} ignoreInput
      (adjustLevelByVolume BaseLevel.urgent (ignoreInput.volume_ratio.getD 1))).1 =
      FinalLevel.ignore := by
  have hadj : adjustLevelByVolume BaseLevel.urgent (ignoreInput.volume_ratio.getD 1) =
      BaseLevel.urgent := by norm_num [adjustLevelByVolume, ignoreInput]
  rw [hadj]
  have h1 : volatilityFilterCheck ignoreInput = (false, "Отсутствует текущий ATR") := rfl
  have h2 : trendFilterCheck ignoreInput = (true, "Покупка: цена выше SMA") := by
    norm_num [trendFilterCheck, ignoreInput]
    decide
  have h3 : volumeFilterCheck thresholdsWhite.volume_min Option.none ignoreInput =
      (true, "Объём достаточен") := by
    norm_num [volumeFilterCheck, getAverageVolume, ignoreInput, thresholdsWhite]
    decide
  simp [applyContextFilters, filterResults, contextFiltersFold, applyFilterStep,
    h1, h2, h3, convertToFinalLevel, rungDown]

/-- The signal assembled from `emitInput` passes the schema validation. -/
theorem buildSignal_emitInput_valid :
    (buildSignal {} emitInput SignalType.panic
      (adjustLevelByVolume BaseLevel.strong (emitInput.volume_ratio.getD 1))
      FinalLevel.red allPassedList []).valid = true := by
  norm_num [buildSignal, PanicSignal.valid, optHolds, emitInput]

/-- Witness for `emit_iff_final_level_and_valid`: a concrete emission,
a concrete `ignore` drop, and validity of the emitted signal, all three parts
of the theorem applied at concrete inputs. -/
theorem emit_iff_final_level_and_valid_witness :
    analyzeTicker {} emitInput = Except.ok (some (buildSignal {} emitInput
      SignalType.panic (adjustLevelByVolume BaseLevel.strong (emitInput.volume_ratio.getD 1))
      FinalLevel.red allPassedList [])) ∧
    analyzeTicker {} ignoreInput = Except.ok Option.none ∧
    (buildSignal {} emitInput SignalType.panic
      (adjustLevelByVolume BaseLevel.strong (emitInput.volume_ratio.getD 1))
      FinalLevel.red allPassedList []).valid = true := by
  have h3 := emit_iff_final_level_and_valid.2.2 {} emitInput SignalType.panic
    "Базовые условия выполнены" BaseLevel.strong FinalLevel.red allPassedList []
    checkBasic_emit_ignore.1 baseLevel_emit_ignore.1 (by decide)
    applyFilters_emitInput (by decide) buildSignal_emitInput_valid
  have h2 := emit_iff_final_level_and_valid.2.1 {} ignoreInput SignalType.panic
    "Базовые условия выполнены" BaseLevel.urgent
    checkBasic_emit_ignore.2 baseLevel_emit_ignore.2 applyFilters_ignoreInput
  have h1 := (emit_iff_final_level_and_valid.1 {} emitInput _ h3).1
  exact ⟨h3, h2, h1⟩

/-- An input whose `volume_ratio` field clears both 1.5 and 1.2 but which the
volume filter rejects (no `current_volume`). -/
def volCexNoCv : TickerDict := { ticker := some "SBER", volume_ratio := some 2 }

/-- An input whose `volume_ratio` field is only 1.0 but which the volume
filter accepts (`current_volume / avg(historical_volumes) = 3`). -/
def volCexLowRatio : TickerDict :=
  { ticker := some "SBER", volume_ratio := some 1, current_volume := some 300,
    historical_volumes := some [100] }

/-- C4 counterexample: the step-7 volume filter does not test the input's
`volumeRatio` field at all — an input with `volumeRatio = 2 ≥ 1.5` is
rejected (missing `current_volume`) and an input with `volumeRatio = 1 < 1.5`
is accepted (its `current_volume / avgVolume = 3`); moreover the detector
instantiates the filter with `min_volume_ratio = 1.2` (the white
`volume_min`), not the bare default 1.5. -/
theorem volume_filter_cex :
    thresholdsWhite.volume_min = 6/5 ∧
    (volumeFilterCheck thresholdsWhite.volume_min Option.none volCexNoCv).1 = false ∧
    volCexNoCv.volume_ratio = some 2 ∧
    (volumeFilterCheck (3/2) Option.none volCexLowRatio).1 = true ∧
    (volumeFilterCheck thresholdsWhite.volume_min Option.none volCexLowRatio).1 = true ∧
    volCexLowRatio.volume_ratio = some 1 := by
  refine ⟨by norm_num [thresholdsWhite], ?_, rfl, ?_, ?_, rfl⟩
  · norm_num [volumeFilterCheck, volCexNoCv]
    decide
  · norm_num [volumeFilterCheck, getAverageVolume, volCexLowRatio]
    decide
  · norm_num [volumeFilterCheck, getAverageVolume, volCexLowRatio, thresholdsWhite]
    decide

/-- C4 (amended): `VolumeFilter.check` passes iff the ticker is present and
non-empty, `current_volume` is present, an average volume is available (from
the input's `historical_volumes`, else the cache/API lookup) and positive, and
`current_volume / average ≥ min_volume_ratio`; the detector builds the filter
with `min_volume_ratio = thresholds['white']['volume_min'] = 1.2`, and the
input's `volumeRatio` field plays no role. -/
theorem volume_filter_check_iff :
    thresholdsWhite.volume_min = 6/5 ∧
    ∀ (minRatio : ℚ) (fetched : Option ℚ) (d : TickerDict),
      ((volumeFilterCheck minRatio fetched d).1 = true ↔
        (∃ t, d.ticker = some t ∧ t ≠ "") ∧
        ∃ v a, d.current_volume = some v ∧ getAverageVolume fetched d = some a ∧
          0 < a ∧ minRatio ≤ v / a) := by
  refine ⟨by norm_num [thresholdsWhite], ?_⟩
  intro minRatio fetched d
  unfold volumeFilterCheck
  cases ht : d.ticker with
  | none => simp
  | some t =>
    simp only
    by_cases hte : t = ""
    · subst hte
      simp
    · rw [if_neg hte]
      cases hcv : d.current_volume with
      | none => simp [hte]
      | some v =>
        simp only
        cases hav : getAverageVolume fetched d with
        | none => simp [hte]
        | some a =>
          simp only
          by_cases ha : a ≤ 0
          · rw [if_pos ha]
            constructor
            · intro h
              exact absurd h (by simp)
            · rintro ⟨-, v2, a2, hv2, ha2, hpos, -⟩
              rw [← Option.some.inj ha2] at hpos
              exact absurd hpos (not_lt.mpr ha)
          · rw [if_neg ha]
            by_cases hr : v / a ≥ minRatio
            · rw [if_pos hr]
              constructor
              · intro _
                exact ⟨⟨t, rfl, hte⟩, v, a, rfl, rfl, lt_of_not_le ha, hr⟩
              · intro _
                rfl
            · rw [if_neg hr]
              constructor
              · intro h
                exact absurd h (by simp)
              · rintro ⟨-, v2, a2, hv2, ha2, -, hge⟩
                rw [← Option.some.inj hv2, ← Option.some.inj ha2] at hge
                exact absurd hge hr

/-- The delta array is one shorter than the price list. -/
theorem deltas_length (prices : List ℚ) : (deltas prices).length = prices.length - 1 := by
  simp [deltas, List.length_zipWith, List.length_tail]

/-- Entry `j` of the RSI result list (`p ≤ j < |prices|`) is the RSI formula
applied to the Wilder averages of gains and losses at delta index `j - 1`. -/
theorem safeCalculateRsi_getD (prices : List ℚ) (p j : ℕ) (hp : 1 ≤ p)
    (hlen : p + 1 ≤ prices.length) (hj1 : p ≤ j) (hj2 : j < prices.length) :
    (safeCalculateRsi prices p).getD j Option.none =
      some (rsiFromAvgs (wilderAvg (gainsOf prices) p (j - 1))
        (wilderAvg (lossesOf prices) p (j - 1))) := by
  have hg : (gainsOf prices).length = prices.length - 1 := by
    simp [gainsOf, deltas_length]
  unfold safeCalculateRsi
  rw [if_neg (not_lt.mpr hlen)]
  simp only
  rw [if_neg (by rw [hg]; omega)]
  have hrep : (List.replicate p (Option.none : Option ℚ)).length = p :=
    List.length_replicate p Option.none
  rw [List.getD_eq_getElem?_getD, List.getElem?_append_right (by rw [hrep]; exact hj1)]
  rw [hrep]
  have hidx : j - p < (((List.range (gainsOf prices).length).drop (p - 1)).map
      (fun i => some (rsiFromAvgs (wilderAvg (gainsOf prices) p i)
        (wilderAvg (lossesOf prices) p i)))).length := by
    simp [List.length_drop, List.length_range, hg]
    omega
  rw [List.getElem?_eq_getElem hidx]
  simp only [List.getElem_map, List.getElem_drop, List.getElem_range, Option.getD_some,
    show p - 1 + (j - p) = j - 1 from by omega]

/-- C6 counterexample: on the strictly rising prices `[1, 2, 3]` with
`period = 2`, the Wilder average loss at the last position is `0`, yet the RSI
value is `10000/101 ≈ 99.01`, not `100`: the code pins `RS` to `100` instead
of pinning `RSI` to `100`. -/
theorem rsi_zero_loss_cex :
    wilderAvg (lossesOf [(1:ℚ), 2, 3]) 2 1 = 0 ∧
    (safeCalculateRsi [(1:ℚ), 2, 3] 2).getD 2 Option.none = some (10000/101) ∧
    (safeCalculateRsi [(1:ℚ), 2, 3] 2).getD 2 Option.none ≠ some 100 := by
  have hl : wilderAvg (lossesOf [(1:ℚ), 2, 3]) 2 1 = 0 := by
    norm_num [wilderAvg, lossesOf, deltas]
  have hgv : wilderAvg (gainsOf [(1:ℚ), 2, 3]) 2 1 = 1 := by
    norm_num [wilderAvg, gainsOf, deltas]
  have hval : (safeCalculateRsi [(1:ℚ), 2, 3] 2).getD 2 Option.none =
      some (10000/101) := by
    rw [safeCalculateRsi_getD [(1:ℚ), 2, 3] 2 2 (by norm_num) (by norm_num)
      (by norm_num) (by norm_num)]
    norm_num [hl, hgv, rsiFromAvgs]
  refine ⟨hl, hval, ?_⟩
  rw [hval]
  norm_num

/-- C6 (amended): wherever the Wilder average loss over the window is `0`, the
RSI value is `100 − 100/101 = 10000/101` (because the code sets `RS = 100`
there); wherever the average gain is `0` and the average loss is not, the RSI
value is `0` as the claim states. -/
theorem rsi_extremes (prices : List ℚ) (p j : ℕ) (hp : 1 ≤ p)
    (hlen : p + 1 ≤ prices.length) (hj1 : p ≤ j) (hj2 : j < prices.length) :
    (wilderAvg (lossesOf prices) p (j - 1) = 0 →
      (safeCalculateRsi prices p).getD j Option.none = some (10000/101)) ∧
    (wilderAvg (gainsOf prices) p (j - 1) = 0 →
      wilderAvg (lossesOf prices) p (j - 1) ≠ 0 →
      (safeCalculateRsi prices p).getD j Option.none = some 0) := by
  rw [safeCalculateRsi_getD prices p j hp hlen hj1 hj2]
  constructor
  · intro hl
    rw [hl]
    norm_num [rsiFromAvgs]
  · intro hg hl
    rw [hg]
    simp only [rsiFromAvgs, if_neg hl]
    norm_num

/-- Witness for `rsi_extremes` on `[1, 2, 3]` with `period = 2` (zero average
loss) and on `[3, 2, 1]` (zero average gain, positive average loss). -/
theorem rsi_extremes_witness :
    (safeCalculateRsi [(1:ℚ), 2, 3] 2).getD 2 Option.none = some (10000/101) ∧
    (safeCalculateRsi [(3:ℚ), 2, 1] 2).getD 2 Option.none = some 0 := by
  constructor
  · exact (rsi_extremes [(1:ℚ), 2, 3] 2 2 (by norm_num) (by norm_num) (by norm_num)
      (by norm_num)).1 (by norm_num [wilderAvg, lossesOf, deltas])
  · exact (rsi_extremes [(3:ℚ), 2, 1] 2 2 (by norm_num) (by norm_num) (by norm_num)
      (by norm_num)).2 (by norm_num [wilderAvg, gainsOf, deltas])
      (by norm_num [wilderAvg, lossesOf, deltas])

/-- A concrete, fully-populated signal dictionary. -/
def sampleSignalDict : SignalDict :=
  { ticker := some "SBER", timestamp := some "2024-01-15 14:30:00",
    signal_type := some "panic", level := some "🔴 СИЛЬНЫЙ",
    rsi_14 := some 24, volume_ratio := some 2, price := some 100,
    base_level := some "strong", final_level := some "red" }

/-- C7 counterexample: `save_signal` deduplicates nothing — saving the same
signal twice (well within one second, the timestamps being identical) leaves
two rows in the table, not the one row the claim promises. -/
theorem save_signal_not_idempotent :
    ((saveSignal [] sampleSignalDict).1).length = 1 ∧
    ((saveSignal (saveSignal [] sampleSignalDict).1 sampleSignalDict).1).length = 2 ∧
    (saveSignal (saveSignal [] sampleSignalDict).1 sampleSignalDict).1 ≠
      (saveSignal [] sampleSignalDict).1 := by
  refine ⟨?_, ?_, ?_⟩
  · simp [saveSignal, sampleSignalDict, pyOrStr, pyOrQ]
  · simp [saveSignal, sampleSignalDict, pyOrStr, pyOrQ]
  · intro h
    have hlen := congrArg List.length h
    simp [saveSignal, sampleSignalDict, pyOrStr, pyOrQ] at hlen

/-- C7 (amended): `save_signal` performs an unconditional `INSERT`: whenever
the four `NOT NULL` columns resolve it appends exactly one new row — so a
repeated save appends a second identical row instead of collapsing — and when
one of them is `None` the insert raises, is caught, and the table is left
unchanged with `False` returned. -/
theorem save_signal_always_inserts (db : List SignalRow) (s : SignalDict) :
    ((saveSignal db s).2 = true →
      (saveSignal db s).1.length = db.length + 1 ∧
      (saveSignal (saveSignal db s).1 s).1.length = db.length + 2) ∧
    ((saveSignal db s).2 = false → (saveSignal db s).1 = db) := by
  unfold saveSignal
  cases ht : s.ticker with
  | none => simp
  | some tk =>
    cases hts : pyOrStr s.detected_at s.timestamp with
    | none => simp
    | some ts =>
      cases hst : s.signal_type with
      | none => simp
      | some sty =>
        cases hlv : s.level with
        | none => simp
        | some lv => simp [ht, hts, hst, hlv]

/-- Witness for `save_signal_always_inserts`: both branches at concrete
dictionaries (a complete one, and one with no `level`). -/
theorem save_signal_always_inserts_witness :
    (saveSignal [] sampleSignalDict).1.length = 1 ∧
    (saveSignal [] ({ ticker := some "SBER" } : SignalDict)).1 = [] := by
  constructor
  · exact ((save_signal_always_inserts [] sampleSignalDict).1
      (by simp [saveSignal, sampleSignalDict, pyOrStr])).1
  · exact (save_signal_always_inserts [] { ticker := some "SBER" }).2
      (by simp [saveSignal, pyOrStr])

/-- The one-strong-signal window for the C8 counterexample. -/
def strongRow : SignalRow :=
  { ticker := "SBER", timestamp := "2024-01-15 14:30:00", signal_type := "panic",
    level := "🔴 СИЛЬНЫЙ" }

/-- C8 counterexample: in a window holding exactly one signal, and that signal
strong, the claim's rule gives `strong/total = 1 > 0.3`, i.e. the top
category, but `get_stats` reports the moderate one — its tension depends only
on the total count (`0 < total < 10`), never on the strong share. -/
theorem market_tension_cex :
    (getStats [strongRow]).total_signals = 1 ∧
    (getStats [strongRow]).strong_signals = 1 ∧
    specMarketTension 1 1 0 = "🔴 ПАНИКА" ∧
    (getStats [strongRow]).market_tension = "🟡 УМЕРЕННО" ∧
    (getStats [strongRow]).market_tension ≠
      specMarketTension (getStats [strongRow]).total_signals
        (getStats [strongRow]).strong_signals (getStats [strongRow]).moderate_signals := by
  refine ⟨?_, ?_, ?_, ?_, ?_⟩
  · simp [getStats, strongRow]
  · simp [getStats, strongRow]
  · norm_num [specMarketTension]
  · simp [getStats, marketTension, strongRow]
  · have h1 : (getStats [strongRow]).market_tension = "🟡 УМЕРЕННО" := by
      simp [getStats, marketTension, strongRow]
    have h2 : (getStats [strongRow]).total_signals = 1 := by simp [getStats, strongRow]
    have h3 : (getStats [strongRow]).strong_signals = 1 := by simp [getStats, strongRow]
    have h4 : (getStats [strongRow]).moderate_signals = 0 := by
      simp [getStats, strongRow]
    rw [h1, h2, h3, h4]
    norm_num [specMarketTension]
    decide

/-- C8 (amended): the market-tension category of `get_stats` depends only on
the total number of signals in the window: `0 → calm`, `1–9 → moderate`,
`≥ 10 → the top (panic) category`, irrespective of the by-level breakdown. -/
theorem market_tension_by_total (w : List SignalRow) :
    (getStats w).total_signals = w.length ∧
    ((getStats w).market_tension = "🟢 СПОКОЙНО" ↔ w.length = 0) ∧
    ((getStats w).market_tension = "🟡 УМЕРЕННО" ↔ 1 ≤ w.length ∧ w.length < 10) ∧
    ((getStats w).market_tension = "🔴 ПАНИКА" ↔ 10 ≤ w.length) := by
  refine ⟨rfl, ?_, ?_, ?_⟩ <;>
    · simp only [getStats, marketTension]
      by_cases h0 : w.length = 0
      · simp [h0]
      · by_cases h10 : w.length < 10
        · simp [h0, h10]
          all_goals omega
        · simp [h0, h10]
          all_goals omega

end Panicker
